import Mathlib

/-
Shallow embedding of the exaqube shipping-tariff extraction pipeline.

Source files embedded here:
  src/main.py                     (upload_data, fetch_records endpoints)
  src/src/models/extractor.py     (ShippingTariff, Table)
  src/src/services/llm.py         (ParseTables: init, run, record coercion)
  src/src/services/sqlite.py      (TariffDB: create_db, insert_record, fetch_records)
  src/src/services/extractor.py   (Extractor: convert_pdf2img, extract_tables, run)

Python scalar values that flow through the pipeline (JSON scalars and
sqlite parameters) are modelled by PyVal: None, int and str.  Floating
point box coordinates and detector confidences are modelled by rationals.
External capabilities (the OpenAI reply, the YOLO detector, pdf2image)
are modelled as oracles: the part of their result that the code inspects.
-/

/-- A Python scalar value: None, an int, or a str. -/
inductive PyVal where
  | vnull
  | vint (n : Int)
  | vstr (s : String)
deriving DecidableEq, Repr

/-- Decimal value of a digit list, most significant first. -/
def digitsVal (cs : List Char) : Nat :=
  cs.foldl (fun a c => a * 10 + (c.toNat - 48)) 0

/-- Python int(str): an optional sign followed by a nonempty run of
decimal digits parses; anything else raises ValueError (none here). -/
def pyStrToInt (s : String) : Option Int :=
  match s.data with
  | [] => none
  | '-' :: rest =>
      if rest ≠ [] ∧ rest.all Char.isDigit then some (-(digitsVal rest : Int)) else none
  | '+' :: rest =>
      if rest ≠ [] ∧ rest.all Char.isDigit then some ((digitsVal rest : Int)) else none
  | cs =>
      if cs.all Char.isDigit then some ((digitsVal cs : Int)) else none

/-- Python int(x): succeeds on ints and on strings holding an integer
literal, raises (None here) on None and on non-numeric strings. -/
def pyInt : PyVal → Option Int
  | .vint n => some n
  | .vstr s => pyStrToInt s
  | .vnull => none

/-- Python dict.get(k): a missing key and a stored None both read as None. -/
def dictGet (v : Option PyVal) : PyVal := v.getD .vnull

/-- One raw JSON object returned by the content-understanding reply, with
the ten keys the code reads.  A field set to none models a missing key;
some .vnull models a key explicitly bound to JSON null. -/
structure RawRecord where
  Country : Option PyVal
  Type' : Option PyVal
  Liner_Name : Option PyVal
  Port : Option PyVal
  Equipment_Type : Option PyVal
  Currency : Option PyVal
  Free_days : Option PyVal
  Bucket_1 : Option PyVal
  Bucket_2 : Option PyVal
  Bucket_3 : Option PyVal
deriving DecidableEq, Repr

/-- The validated record, src/src/models/extractor.py ShippingTariff. -/
structure ShippingTariff where
  Country : String
  Type' : String
  Liner_Name : Option String
  Port : Option String
  Equipment_Type : String
  Currency : String
  Free_days : Int
  Bucket_1 : Option Int
  Bucket_2 : Option Int
  Bucket_3 : Option Int
deriving DecidableEq, Repr

/-- Membership test of llm.py line 176: value in [None, "null", ""]. -/
def isBucketSentinel (v : PyVal) : Bool :=
  v == .vnull || v == .vstr "null" || v == .vstr ""

/-- Bucket coercion, llm.py lines 176-178:
int(i[k]) if i.get(k) not in [None, "null", ""] else None.
Outer none models the int() call raising, which skips the record. -/
def coerceBucket (v : Option PyVal) : Option (Option Int) :=
  if isBucketSentinel (dictGet v) then some none
  else match pyInt (dictGet v) with
       | some n => some (some n)
       | none => none

/-- Free day coercion, llm.py line 179:
int(i["Free_days"]) if i.get("Free_days") is not None else None.
Outer none models the int() call raising. -/
def coerceFreeDays (v : Option PyVal) : Option (Option Int) :=
  if dictGet v == .vnull then some none
  else match pyInt (dictGet v) with
       | some n => some (some n)
       | none => none

/-- Normalization of llm.py lines 182-183 (i.get(k) or None) followed by
pydantic validation of an Optional[str] field: falsy values become None,
strings stay, a non-falsy int fails validation (outer none). -/
def normalizeOptStr (v : Option PyVal) : Option (Option String) :=
  match dictGet v with
  | .vnull => some none
  | .vstr s => if s = "" then some none else some (some s)
  | .vint n => if n = 0 then some none else none

/-- Pydantic validation of a required str field: the value must be a
string; missing, None and int values fail validation. -/
def reqStr (v : Option PyVal) : Option String :=
  match dictGet v with
  | .vstr s => some s
  | _ => none

/-- One iteration of the record loop in llm.py lines 174-188: coerce the
three buckets and Free_days, normalize Liner_Name and Port, then build
ShippingTariff(**i).  Any coercion or validation failure raises inside
the per-record try block, so the record is skipped (none). -/
def normalizeRecord (i : RawRecord) : Option ShippingTariff :=
  match coerceBucket i.Bucket_1, coerceBucket i.Bucket_2, coerceBucket i.Bucket_3,
        coerceFreeDays i.Free_days, normalizeOptStr i.Liner_Name, normalizeOptStr i.Port,
        reqStr i.Country, reqStr i.Type', reqStr i.Equipment_Type, reqStr i.Currency with
  | some b1, some b2, some b3, some (some fd), some ln, some pt,
    some c, some ty, some et, some cur =>
      some { Country := c, Type' := ty, Liner_Name := ln, Port := pt,
             Equipment_Type := et, Currency := cur, Free_days := fd,
             Bucket_1 := b1, Bucket_2 := b2, Bucket_3 := b3 }
  | _, _, _, _, _, _, _, _, _, _ => none

/-- Sqlite binding of the tuple built by ShippingTariff.values in
src/src/models/extractor.py lines 17-29: the ten business fields in
declaration order, Options binding to NULL. -/
def optStrVal : Option String → PyVal
  | none => .vnull
  | some s => .vstr s

/-- Sqlite binding of an optional integer field. -/
def optIntVal : Option Int → PyVal
  | none => .vnull
  | some n => .vint n

/-- ShippingTariff.values, src/src/models/extractor.py lines 17-29. -/
def ShippingTariff.values (t : ShippingTariff) : List PyVal :=
  [ .vstr t.Country, .vstr t.Type', optStrVal t.Liner_Name, optStrVal t.Port,
    .vstr t.Equipment_Type, .vstr t.Currency, .vint t.Free_days,
    optIntVal t.Bucket_1, optIntVal t.Bucket_2, optIntVal t.Bucket_3 ]

/-- One row of the shipping_tariffs table, columns in the order of the
CREATE TABLE statement in sqlite.py lines 57-71; doc_id is the single
PRIMARY KEY column. -/
structure DbRow where
  doc_id : PyVal
  Type' : PyVal
  Country : PyVal
  Liner_Name : PyVal
  Port : PyVal
  Equipment_Type : PyVal
  Currency : PyVal
  Free_days : PyVal
  Bucket_1 : PyVal
  Bucket_2 : PyVal
  Bucket_3 : PyVal
deriving DecidableEq, Repr

/-- The ordered business-field tuple of a stored row:
(country, direction, liner_name, port, equipment_type, currency,
free_days, bucket_1, bucket_2, bucket_3). -/
def businessFields (r : DbRow) : List PyVal :=
  [ r.Country, r.Type', r.Liner_Name, r.Port, r.Equipment_Type,
    r.Currency, r.Free_days, r.Bucket_1, r.Bucket_2, r.Bucket_3 ]

/-- The SQL text executed by insert_record, sqlite.py lines 124-138. -/
def insertQuery : String :=
  "INSERT OR REPLACE INTO shipping_tariffs (Country, Type, \"Liner Name\", Port, \"Equipment Type\", Currency, \"Free days\", \"Bucket 1\", \"Bucket 2\", \"Bucket 3\", doc_id) VALUES (?, ?, ?, ?, ?, ?, ?, ?, ?, ?, ?);"

/-- Number of parameter placeholders in a SQL string. -/
def sqlPlaceholders (q : String) : Nat :=
  (q.data.filter (fun c => c == '?')).length

/-- TariffDB.insert_record, sqlite.py lines 113-152.  The statement binds
eleven parameters in the order Country, Type, Liner Name, Port,
Equipment Type, Currency, Free days, Bucket 1, Bucket 2, Bucket 3,
doc_id.  A data tuple of any other arity makes cursor.execute raise,
the handler logs and returns False with the store unchanged.  On a
match, INSERT OR REPLACE keyed on the doc_id primary key removes any
row with the same doc_id and appends the new row, returning True. -/
def TariffDB.insert_record (db : List DbRow) (data : List PyVal) : List DbRow × Bool :=
  match data with
  | [country, ty, liner, port, equip, curr, fd, b1, b2, b3, docId] =>
      (db.filter (fun r => !(r.doc_id == docId)) ++
        [{ doc_id := docId, Type' := ty, Country := country, Liner_Name := liner,
           Port := port, Equipment_Type := equip, Currency := curr, Free_days := fd,
           Bucket_1 := b1, Bucket_2 := b2, Bucket_3 := b3 }], true)
  | _ => (db, false)

/-- TariffDB.fetch_records, sqlite.py lines 87-111: SELECT * returns every
row (none would model an I/O error, not exercised in this model). -/
def TariffDB.fetch_records (db : List DbRow) : Option (List DbRow) :=
  some db

/-- State of a ParseTables instance after __init__, llm.py lines 38-74:
the loaded prompt (None when the file read failed or the path extension
was wrong) and whether an OpenAI client is available. -/
structure ParserState where
  prompt : Option String
  clientOk : Bool

/-- Prompt loading in ParseTables.__init__, llm.py lines 50-60: a path
not ending in .txt or a failing read is caught and leaves prompt None;
the constructor itself never raises. -/
def initPrompt (promptPathEndsTxt : Bool) (readResult : Option String) : Option String :=
  if promptPathEndsTxt then readResult else none

/-- Python truthiness of an optional string, for the guard
`if not self.prompt` in llm.py line 118. -/
def pyStrTruthy : Option String → Bool
  | none => false
  | some s => !(s == "")

/-- ParseTables.run, llm.py lines 98-200, abstracted over the remote
call: reply none models every failure the code maps to returning None
for the region (missing choices, JSON decode error, any raised error);
reply (some raws) models a reply that parsed as a JSON array.  On a
parsed reply the record loop keeps exactly the records that survive
coercion and validation. -/
def ParseTables.run (st : ParserState) (reply : Option (List RawRecord)) :
    Option (List ShippingTariff) :=
  if pyStrTruthy st.prompt = false then none
  else if st.clientOk = false then none
  else
    match reply with
    | none => none
    | some raws => some (raws.filterMap normalizeRecord)

/-- The per-region results of parser.run observed by the upload_data
loop in main.py lines 39-46: one call per extracted table. -/
def processedRegions (st : ParserState) (tabs : List (Option (List RawRecord))) :
    List (Option (List ShippingTariff)) :=
  tabs.map (ParseTables.run st)

/-- The inner loop of upload_data, main.py lines 43-46: insert each
parsed record via db.insert_record(data=i.values()), counting the
inserts that report success. -/
def insertLoop : List ShippingTariff → List DbRow → Nat → List DbRow × Nat
  | [], db, count => (db, count)
  | i :: rest, db, count =>
      let s := TariffDB.insert_record db i.values
      insertLoop rest s.1 (if s.2 then count + 1 else count)

/-- The outer loop of upload_data, main.py lines 39-46: run the parser
on each table; a falsy result (None or empty list) is skipped. -/
def uploadLoop : List (Option (List RawRecord)) → ParserState → List DbRow → Nat →
    List DbRow × Nat
  | [], _, db, count => (db, count)
  | tab :: rest, st, db, count =>
      match ParseTables.run st tab with
      | none => uploadLoop rest st db count
      | some parsed =>
          if parsed = [] then uploadLoop rest st db count
          else
            let s := insertLoop parsed db count
            uploadLoop rest st s.1 s.2

/-- The upload_data endpoint, main.py lines 29-47, from the point where
the extracted tables are in hand: returns the final store and the
inserted_records count. -/
def upload_data (st : ParserState) (tabs : List (Option (List RawRecord)))
    (db : List DbRow) : List DbRow × Nat :=
  uploadLoop tabs st db 0

/-- The sequence of records that upload_data hands to insert_record, in
order: per table, the parsed records when the parser result is truthy. -/
def uploadRecords (st : ParserState) : List (Option (List RawRecord)) → List ShippingTariff
  | [] => []
  | tab :: rest =>
      match ParseTables.run st tab with
      | none => uploadRecords st rest
      | some parsed =>
          if parsed = [] then uploadRecords st rest else parsed ++ uploadRecords st rest

-- ## Extractor service (src/src/services/extractor.py)

/-- One YOLO detection as read by extract_tables: a confidence, a class
id and the xyxy box, floats modelled as rationals. -/
structure Detection where
  conf : ℚ
  cls : ℕ
  x1 : ℚ
  y1 : ℚ
  x2 : ℚ
  y2 : ℚ
deriving DecidableEq, Repr

/-- A cropped region: the integer box handed to image.crop.  The crop
result is determined by the box, so the box stands for the sub-image. -/
structure Crop where
  x1 : Int
  y1 : Int
  x2 : Int
  y2 : Int
deriving DecidableEq, Repr

/-- Width of a crop as PIL computes it: right minus left. -/
def Crop.width (c : Crop) : Int := c.x2 - c.x1

/-- Height of a crop as PIL computes it: lower minus upper. -/
def Crop.height (c : Crop) : Int := c.y2 - c.y1

/-- Python int() on a float: truncation toward zero. -/
def pyTrunc (q : ℚ) : Int := q.num / (q.den : Int)

/-- The crop taken for one detection, extractor.py lines 199-201:
x1, y1, x2, y2 = map(int, xyxy); image.crop((x1, y1, x2, y2)). -/
def cropOf (d : Detection) : Crop :=
  { x1 := pyTrunc d.x1, y1 := pyTrunc d.y1, x2 := pyTrunc d.x2, y2 := pyTrunc d.y2 }

/-- The detection loop of extract_tables, extractor.py lines 191-202:
keep a detection when conf_value >= 0.2 and label[i] == 8, and append
its crop; nothing else is filtered.  The threshold 0.2 is written as
the exact rational two tenths. -/
def tableCrops (dets : List Detection) : List Crop :=
  dets.filterMap (fun d => if mkRat 2 10 ≤ d.conf ∧ d.cls = 8 then some (cropOf d) else none)

/-- Extractor.extract_tables, extractor.py lines 169-215.  A None
detections argument makes len(detections) raise, which the handler
converts to None; an empty response list also returns None. -/
def Extractor.extract_tables (detections : Option (List Detection)) : Option (List Crop) :=
  match detections with
  | none => none
  | some dets =>
      let response := tableCrops dets
      if response = [] then none else some response

-- Python string slicing helpers used by Extractor.run on filenames.

/-- Python s[-n:]. -/
def pySliceLast (s : String) (n : Nat) : String := ⟨s.data.drop (s.data.length - n)⟩

/-- Python s[:-n]. -/
def pyDropLast (s : String) (n : Nat) : String := ⟨s.data.take (s.data.length - n)⟩

/-- Python s.endswith(suffix). -/
def pyEndsWith (s suf : String) : Bool := pySliceLast s suf.data.length == suf

/-- Fuel-driven worker for Python str.replace. -/
def pyReplaceAux (pat rep : List Char) : Nat → List Char → List Char
  | _, [] => []
  | 0, rest => rest
  | fuel + 1, c :: cs =>
      if (c :: cs).take pat.length = pat ∧ pat ≠ [] then
        rep ++ pyReplaceAux pat rep fuel ((c :: cs).drop pat.length)
      else
        c :: pyReplaceAux pat rep fuel cs

/-- Python s.replace(pat, rep) for a nonempty pattern. -/
def pyReplace (s pat rep : String) : String :=
  ⟨pyReplaceAux pat.data rep.data (s.data.length + 1) s.data⟩

/-- A Table object, src/src/models/extractor.py lines 31-35, as built in
Extractor.run lines 279-290 (the optional tariff field is never set
there and is omitted). -/
structure Table where
  img : Crop
  pdf_file : String
  page_no : String
deriving DecidableEq, Repr

/-- Table construction in Extractor.run lines 279-290: pdf_file is
filename[:-10] + ".pdf" and page_no is filename[-10:] with ".png"
removed. -/
def mkTable (filename : String) (img : Crop) : Table :=
  { img := img
  , pdf_file := pyDropLast filename 10 ++ ".pdf"
  , page_no := pyReplace (pySliceLast filename 10) ".png" "" }

/-- The directory contents and capability oracles a run of
Extractor.run observes: the files of downloads/country, whether
convert_pdf2img succeeds on each (True versus the None it returns on
failure), the files of the image output directory after conversion,
and the prediction result per page image (None models a raised
detection error). -/
structure RunEnv where
  pdfFiles : List String
  convert : String → Bool
  pageFiles : List String
  detect : String → Option (List Detection)

/-- The conversion-status list of Extractor.run lines 257-264: per
directory entry, convert_pdf2img for .pdf files and False otherwise. -/
def convStatus (env : RunEnv) : List Bool :=
  env.pdfFiles.map (fun filename =>
    if pyEndsWith filename ".pdf" then env.convert filename else false)

/-- The body of the page loop in Extractor.run lines 270-295 for one
output-directory entry: non-png entries contribute nothing; otherwise
predict, extract tables and wrap each crop in a Table.  The code
branches on len(tables) > 1 but both branches append every table of a
nonempty list. -/
def tablesForPage (env : RunEnv) (filename : String) : List Table :=
  if pyEndsWith filename ".png" then
    match Extractor.extract_tables (env.detect filename) with
    | some tabs =>
        if tabs.length > 1 then tabs.map (mkTable filename)
        else
          match tabs.head? with
          | some t => [mkTable filename t]
          | none => []
    | none => []
  else []

/-- The detection and extraction stage of Extractor.run lines 270-295:
the concatenation of the page results in directory order. -/
def detectStage (env : RunEnv) : List Table :=
  (env.pageFiles.map (tablesForPage env)).flatten

/-- Extractor.run, extractor.py lines 240-301: the detection stage runs
only when every conversion status is truthy; otherwise the run logs and
returns the empty result list. -/
def Extractor.run (env : RunEnv) : List Table :=
  if (convStatus env).all (fun b => b) then detectStage env else []

-- ## Sample data used by concrete theorems

/-- A raw record with the bucket values of the round-trip example of the
spec: Bucket_1 = "null", Bucket_2 = "", Bucket_3 = "150". -/
def rawOk : RawRecord :=
  { Country := some (.vstr "India"), Type' := some (.vstr "IB"),
    Liner_Name := some (.vstr "Maersk"), Port := some (.vstr "Mundra"),
    Equipment_Type := some (.vstr "40HC"), Currency := some (.vstr "USD"),
    Free_days := some (.vstr "7"),
    Bucket_1 := some (.vstr "null"), Bucket_2 := some (.vstr ""),
    Bucket_3 := some (.vstr "150") }

/-- The canonical record rawOk normalizes to. -/
def tariffOk : ShippingTariff :=
  { Country := "India", Type' := "IB", Liner_Name := some "Maersk",
    Port := some "Mundra", Equipment_Type := "40HC", Currency := "USD",
    Free_days := 7, Bucket_1 := none, Bucket_2 := none, Bucket_3 := some 150 }

/-- rawOk with a non-coercible non-empty bucket value. -/
def rawBadBucket : RawRecord := { rawOk with Bucket_1 := some (.vstr "abc") }

/-- rawOk with a negative Free_days value. -/
def rawNegFd : RawRecord := { rawOk with Free_days := some (.vstr "-3") }

/-- The record the code accepts for rawNegFd. -/
def tariffNeg : ShippingTariff := { tariffOk with Free_days := -3 }

/-- rawOk with the Free_days key missing. -/
def rawNoFd : RawRecord := { rawOk with Free_days := none }

/-- The ten business-field values of one canonical record, as bound by
insert_record ahead of the doc_id parameter. -/
def recFields : List PyVal :=
  [.vstr "India", .vstr "IB", .vnull, .vstr "Mundra", .vstr "40HC", .vstr "USD",
   .vint 7, .vnull, .vnull, .vnull]

/-- A detection of the table class with zero-width box. -/
def dZeroWidth : Detection :=
  { conf := mkRat 9 10, cls := 8, x1 := mkRat 10 1, y1 := mkRat 5 1,
    x2 := mkRat 10 1, y2 := mkRat 20 1 }

/-- A detection at the inclusion boundary: confidence 0.20, table class. -/
def dIncl : Detection :=
  { conf := mkRat 2 10, cls := 8, x1 := mkRat 10 1, y1 := mkRat 10 1,
    x2 := mkRat 60 1, y2 := mkRat 60 1 }

/-- A high-confidence table detection on the sample page. -/
def dTable : Detection :=
  { conf := mkRat 9 10, cls := 8, x1 := mkRat 10 1, y1 := mkRat 10 1,
    x2 := mkRat 60 1, y2 := mkRat 60 1 }

/-- A run directory with one convertible pdf and one pdf whose
conversion fails; the page of the good pdf contains one table. -/
def envC3 : RunEnv :=
  { pdfFiles := ["good.pdf", "bad.pdf"]
  , convert := fun f => f == "good.pdf"
  , pageFiles := ["good_page_1.png"]
  , detect := fun _ => some [dTable] }

/-- A run directory holding a pdf that converts plus a stray text file;
the page of the pdf contains one table. -/
def env10 : RunEnv :=
  { pdfFiles := ["good.pdf", "notes.txt"]
  , convert := fun _ => true
  , pageFiles := ["good_page_1.png"]
  , detect := fun _ => some [dTable] }

/-- Parser state after a failed template read: initPrompt receives none
from the read and stores it; the client is available. -/
def stNoPrompt : ParserState := ⟨initPrompt true none, true⟩

-- ## Helper lemmas

/-- Unfolds one successful insert into its filter-and-append form. -/
theorem insert_record_cons (db : List DbRow) (c t ln p et cur fd b1 b2 b3 did : PyVal) :
    TariffDB.insert_record db [c, t, ln, p, et, cur, fd, b1, b2, b3, did] =
      (db.filter (fun r => !(r.doc_id == did)) ++
        [{ doc_id := did, Type' := t, Country := c, Liner_Name := ln, Port := p,
           Equipment_Type := et, Currency := cur, Free_days := fd,
           Bucket_1 := b1, Bucket_2 := b2, Bucket_3 := b3 }], true) := rfl

/-- An insert of the ten-element values tuple always fails with the
store unchanged, because the statement needs eleven parameters. -/
theorem insert_values_fails (db : List DbRow) (t : ShippingTariff) :
    TariffDB.insert_record db t.values = (db, false) := rfl

/-- The insert loop of upload_data never changes the store or the count. -/
theorem insertLoop_const (l : List ShippingTariff) :
    ∀ db count, insertLoop l db count = (db, count) := by
  induction l with
  | nil => intro db count; rfl
  | cons i rest ih =>
      intro db count
      simp only [insertLoop, insert_values_fails]
      exact ih db count

/-- The table loop of upload_data never changes the store or the count. -/
theorem uploadLoop_const (tabs : List (Option (List RawRecord))) :
    ∀ st db count, uploadLoop tabs st db count = (db, count) := by
  induction tabs with
  | nil => intro st db count; rfl
  | cons tab rest ih =>
      intro st db count
      simp only [uploadLoop]
      cases ParseTables.run st tab with
      | none => exact ih st db count
      | some parsed =>
          by_cases hp : parsed = []
          · simp only [hp, if_pos rfl]
            exact ih st db count
          · simp only [if_neg hp, insertLoop_const]
            exact ih st db count

-- ## Claims

/-- C1, counterexample: the store deduplicates on doc_id, not on the
business-field tuple.  Inserting the same canonical business fields
under two distinct doc_id values leaves two rows whose business tuple
equals the record, and the fetch_records count grows from 1 to 2 on
the second insert. -/
theorem c1_counterexample :
    (((TariffDB.insert_record
        (TariffDB.insert_record [] (recFields ++ [.vstr "doc1"])).1
        (recFields ++ [.vstr "doc2"])).1).filter
      (fun r => businessFields r == recFields)).length = 2 ∧
    ((TariffDB.fetch_records
        (TariffDB.insert_record [] (recFields ++ [.vstr "doc1"])).1).getD []).length = 1 ∧
    ((TariffDB.fetch_records (TariffDB.insert_record
        (TariffDB.insert_record [] (recFields ++ [.vstr "doc1"])).1
        (recFields ++ [.vstr "doc2"])).1).getD []).length = 2 := by decide

/-- C1, amended: upsert is idempotent on the doc_id primary key, not on
the business-field tuple.  Re-inserting the same full eleven-value
tuple reports success, leaves the store unchanged, keeps exactly one
row with that doc_id, and the fetch_records count is unchanged by the
second insert. -/
theorem c1_doc_id_upsert (db : List DbRow) (c t ln p et cur fd b1 b2 b3 did : PyVal) :
    (TariffDB.insert_record db [c, t, ln, p, et, cur, fd, b1, b2, b3, did]).2 = true ∧
    TariffDB.insert_record
        (TariffDB.insert_record db [c, t, ln, p, et, cur, fd, b1, b2, b3, did]).1
        [c, t, ln, p, et, cur, fd, b1, b2, b3, did]
      = ((TariffDB.insert_record db [c, t, ln, p, et, cur, fd, b1, b2, b3, did]).1, true) ∧
    (((TariffDB.insert_record db [c, t, ln, p, et, cur, fd, b1, b2, b3, did]).1).filter
        (fun r => r.doc_id == did)).length = 1 := by
  refine ⟨rfl, ?_, ?_⟩
  · simp [insert_record_cons, List.filter_append, List.filter_filter,
      Bool.and_self, Bool.and_not_self, Bool.not_and_self]
  · simp [insert_record_cons, List.filter_append, List.filter_filter,
      Bool.and_self, Bool.and_not_self, Bool.not_and_self]

/-- C2: ShippingTariff.values builds a ten-element tuple while the
INSERT statement of insert_record carries eleven placeholders, so every
insert_record call made from upload_data fails its parameter binding
and returns False, and upload_data answers inserted_records = 0 with
the store untouched, whatever was extracted. -/
theorem c2_values_arity_mismatch (t : ShippingTariff) (db : List DbRow)
    (st : ParserState) (tabs : List (Option (List RawRecord))) :
    t.values.length = 10 ∧ sqlPlaceholders insertQuery = 11 ∧
    TariffDB.insert_record db t.values = (db, false) ∧
    upload_data st tabs db = (db, 0) :=
  ⟨rfl, by decide, rfl, uploadLoop_const tabs st db 0⟩

/-- C3, counterexample: with two documents of which one fails to
convert, Extractor.run returns the empty list even though the
detection stage would extract one table from the successfully
converted document, so the run does not proceed to the other
documents. -/
theorem c3_counterexample :
    convStatus envC3 = [true, false] ∧
    Extractor.run envC3 = [] ∧
    detectStage envC3 = [⟨⟨10, 10, 60, 60⟩, "good_.pdf", "page_1"⟩] := by decide

/-- C3, amended: a failed conversion of any pdf in the directory makes
the all() gate false and Extractor.run returns the empty list without
running detection or extraction for any document. -/
theorem c3_conversion_gate (env : RunEnv) (f : String) (hf : f ∈ env.pdfFiles)
    (hpdf : pyEndsWith f ".pdf" = true) (hconv : env.convert f = false) :
    (convStatus env).all (fun b => b) = false ∧ Extractor.run env = [] := by
  have hmem : false ∈ convStatus env := by
    unfold convStatus
    refine List.mem_map.mpr ⟨f, hf, ?_⟩
    simp [hpdf, hconv]
  have hall : (convStatus env).all (fun b => b) = false := by
    cases hba : (convStatus env).all (fun b => b)
    · rfl
    · exact absurd (List.all_eq_true.mp hba false hmem) (by simp)
  exact ⟨hall, by simp [Extractor.run, hall]⟩

/-- C3, witness for the amended theorem at the concrete environment. -/
theorem c3_conversion_gate_witness :
    ("bad.pdf" ∈ envC3.pdfFiles ∧ pyEndsWith "bad.pdf" ".pdf" = true ∧
      envC3.convert "bad.pdf" = false) ∧
    Extractor.run envC3 = [] :=
  ⟨⟨by decide, by decide, by decide⟩,
   (c3_conversion_gate envC3 "bad.pdf" (by decide) (by decide) (by decide)).2⟩

/-- C4, counterexample: a failed template read is not fatal.  The
constructor stores prompt = None, the pipeline still processes every
region (two parser calls here, each returning None), and upload_data
returns a normal inserted_records = 0 answer instead of aborting
before any document is processed. -/
theorem c4_counterexample :
    stNoPrompt.prompt = none ∧
    processedRegions stNoPrompt [some [rawOk], some [rawOk]] = [none, none] ∧
    upload_data stNoPrompt [some [rawOk], some [rawOk]] [] = ([], 0) := by decide

/-- C4, amended: failure to load the instruction template is caught in
ParseTables.__init__, which stores prompt = None; afterwards every
ParseTables.run call returns None, so each region contributes zero
records and upload_data completes over all documents with
inserted_records = 0. -/
theorem c4_template_failure_soft (clientOk : Bool) (tab : Option (List RawRecord))
    (tabs : List (Option (List RawRecord))) (db : List DbRow) :
    ParseTables.run ⟨initPrompt true none, clientOk⟩ tab = none ∧
    upload_data ⟨initPrompt true none, clientOk⟩ tabs db = (db, 0) :=
  ⟨rfl, uploadLoop_const tabs _ db 0⟩

/-- C5: with a loaded prompt and a live client, the records handed to
the store by the upload loop are exactly the concatenated normalized
records of the regions whose replies parsed, in order; a region whose
reply is malformed (none) contributes zero records and does not
disturb its siblings. -/
theorem c5_region_isolation (st : ParserState) (replies : List (Option (List RawRecord)))
    (hp : pyStrTruthy st.prompt = true) (hc : st.clientOk = true) :
    uploadRecords st replies =
      ((replies.filterMap id).map (fun raws => raws.filterMap normalizeRecord)).flatten := by
  induction replies with
  | nil => rfl
  | cons reply rest ih =>
      cases reply with
      | none =>
          have hrun : ParseTables.run st none = none := by
            simp [ParseTables.run, hp, hc]
          simp [uploadRecords, hrun, ih]
      | some raws =>
          have hrun : ParseTables.run st (some raws) =
              some (raws.filterMap normalizeRecord) := by
            simp [ParseTables.run, hp, hc]
          by_cases hz : raws.filterMap normalizeRecord = []
          · simp [uploadRecords, hrun, hz, ih]
          · simp [uploadRecords, hrun, hz, ih]

/-- C5, witness: three regions where the second reply is malformed; the
batch yields exactly the record of region one (region three parses but
its only record has a bad bucket and validates away). -/
theorem c5_region_isolation_witness :
    (pyStrTruthy (some "extract the table") = true) ∧
    uploadRecords ⟨some "extract the table", true⟩
        [some [rawOk], none, some [rawBadBucket]] = [tariffOk] :=
  ⟨rfl, (c5_region_isolation ⟨some "extract the table", true⟩
      [some [rawOk], none, some [rawBadBucket]] rfl rfl).trans (by decide)⟩

/-- C6: a detection is kept iff its confidence is at least 0.20 and its
class label is the table class 8; concretely, of the three detections
(conf 0.19, class 8), (conf 0.20, class 8), (conf 0.90, class 3), only
the middle one is extracted. -/
theorem c6_confidence_class_filter (d : Detection) :
    (cropOf d ∈ tableCrops [d] ↔ (mkRat 2 10 ≤ d.conf ∧ d.cls = 8)) ∧
    Extractor.extract_tables (some
        [{ conf := mkRat 19 100, cls := 8, x1 := mkRat 0 1, y1 := mkRat 0 1,
           x2 := mkRat 50 1, y2 := mkRat 50 1 },
         dIncl,
         { conf := mkRat 9 10, cls := 3, x1 := mkRat 0 1, y1 := mkRat 0 1,
           x2 := mkRat 50 1, y2 := mkRat 50 1 }]) =
      some [⟨10, 10, 60, 60⟩] := by
  constructor
  · unfold tableCrops
    by_cases h : mkRat 2 10 ≤ d.conf ∧ d.cls = 8
    · simp [h]
    · simp [h]
  · decide

/-- C6, witness: the boundary detection with confidence exactly 0.20 is
included. -/
theorem c6_confidence_class_filter_witness :
    (mkRat 2 10 ≤ dIncl.conf ∧ dIncl.cls = 8) ∧ cropOf dIncl ∈ tableCrops [dIncl] :=
  ⟨⟨le_refl _, rfl⟩, (c6_confidence_class_filter dIncl).1.mpr ⟨le_refl _, rfl⟩⟩

/-- C7: bucket coercion maps each empty sentinel (missing key, JSON
null, the token "null", the empty string) to absent and coerces other
values with int(); the spec round trip Bucket_1 = "null",
Bucket_2 = "", Bucket_3 = "150" yields absent, absent, 150, and a
non-coercible non-empty bucket value invalidates the whole record. -/
theorem c7_bucket_normalization :
    coerceBucket none = some none ∧
    coerceBucket (some .vnull) = some none ∧
    coerceBucket (some (.vstr "null")) = some none ∧
    coerceBucket (some (.vstr "")) = some none ∧
    coerceBucket (some (.vstr "150")) = some (some 150) ∧
    normalizeRecord rawOk = some tariffOk ∧
    tariffOk.Bucket_1 = none ∧ tariffOk.Bucket_2 = none ∧ tariffOk.Bucket_3 = some 150 ∧
    normalizeRecord rawBadBucket = none := by decide

/-- C8, counterexample: Free_days is only passed through int(), never
checked for sign, so a record with Free_days = "-3" validates and is
kept with a negative free-day count instead of being invalidated. -/
theorem c8_counterexample :
    normalizeRecord rawNegFd = some tariffNeg ∧ tariffNeg.Free_days < 0 := by decide

/-- C8, amended: Free_days must coerce through int() (sign unchecked);
a missing, null or non-coercible value invalidates exactly that
record, and the batch result is the concatenation of the surviving
records around it. -/
theorem c8_free_days_required (r : RawRecord) (pre post : List RawRecord)
    (h : pyInt (dictGet r.Free_days) = none) :
    normalizeRecord r = none ∧
    (pre ++ r :: post).filterMap normalizeRecord =
      pre.filterMap normalizeRecord ++ post.filterMap normalizeRecord := by
  have hfd : coerceFreeDays r.Free_days = some none ∨ coerceFreeDays r.Free_days = none := by
    unfold coerceFreeDays
    by_cases hn : dictGet r.Free_days == PyVal.vnull
    · simp [hn]
    · simp [hn, h]
  have hnorm : normalizeRecord r = none := by
    unfold normalizeRecord
    split
    · rcases hfd with hfd | hfd <;> simp_all
    · rfl
  refine ⟨hnorm, ?_⟩
  simp [List.filterMap_append, List.filterMap_cons, hnorm]

/-- C8, witness: a record missing Free_days is dropped while its two
siblings in the same batch survive. -/
theorem c8_free_days_required_witness :
    pyInt (dictGet rawNoFd.Free_days) = none ∧
    normalizeRecord rawNoFd = none ∧
    ([rawOk] ++ rawNoFd :: [rawOk]).filterMap normalizeRecord =
      [rawOk].filterMap normalizeRecord ++ [rawOk].filterMap normalizeRecord :=
  ⟨rfl, (c8_free_days_required rawNoFd [rawOk] [rawOk] rfl).1,
   (c8_free_days_required rawNoFd [rawOk] [rawOk] rfl).2⟩

/-- C9, counterexample: extract_tables keeps every qualifying crop
without inspecting its size, so a qualifying detection whose truncated
box has zero width is emitted as an output region instead of being
dropped. -/
theorem c9_counterexample :
    Extractor.extract_tables (some [dZeroWidth]) = some [⟨10, 5, 10, 20⟩] ∧
    Crop.width ⟨10, 5, 10, 20⟩ = 0 := by decide

/-- C9, amended: every qualifying detection is cropped at the
integer-truncated box coordinates and appended unconditionally; no
zero- or negative-size check is applied. -/
theorem c9_truncated_crop_kept (d : Detection) (dets : List Detection)
    (h1 : mkRat 2 10 ≤ d.conf) (h2 : d.cls = 8) :
    tableCrops (d :: dets) =
      { x1 := pyTrunc d.x1, y1 := pyTrunc d.y1,
        x2 := pyTrunc d.x2, y2 := pyTrunc d.y2 : Crop } :: tableCrops dets := by
  simp [tableCrops, cropOf, List.filterMap_cons, h1, h2]

/-- C9, witness for the amended theorem at the zero-width detection. -/
theorem c9_truncated_crop_kept_witness :
    (mkRat 2 10 ≤ dZeroWidth.conf ∧ dZeroWidth.cls = 8) ∧
    tableCrops [dZeroWidth] = [⟨10, 5, 10, 20⟩] :=
  ⟨⟨by decide, rfl⟩, (c9_truncated_crop_kept dZeroWidth [] (by decide) rfl).trans (by decide)⟩

/-- C10: a file in the download directory whose name does not end in
.pdf gets conversion status False, which falsifies the all() gate, and
Extractor.run returns the empty list without detecting or extracting
anything. -/
theorem c10_nonpdf_gates_run (env : RunEnv) (f : String) (hf : f ∈ env.pdfFiles)
    (h : pyEndsWith f ".pdf" = false) :
    false ∈ convStatus env ∧ Extractor.run env = [] := by
  have hmem : false ∈ convStatus env := by
    unfold convStatus
    refine List.mem_map.mpr ⟨f, hf, ?_⟩
    simp [h]
  have hall : (convStatus env).all (fun b => b) = false := by
    cases hba : (convStatus env).all (fun b => b)
    · rfl
    · exact absurd (List.all_eq_true.mp hba false hmem) (by simp)
  exact ⟨hmem, by simp [Extractor.run, hall]⟩

/-- C10, witness: a directory with one pdf that converts fine plus a
stray notes.txt still yields the empty run result. -/
theorem c10_nonpdf_gates_run_witness :
    ("notes.txt" ∈ env10.pdfFiles ∧ pyEndsWith "notes.txt" ".pdf" = false ∧
      env10.convert "good.pdf" = true) ∧
    false ∈ convStatus env10 ∧ Extractor.run env10 = [] :=
  ⟨⟨by decide, by decide, rfl⟩,
   c10_nonpdf_gates_run env10 "notes.txt" (by decide) (by decide)⟩
